import Mathlib

/-!
# Verification of the Symphony quantitative pipeline

Shallow embedding of the core quantitative pipeline of the Symphony
repository, and proofs of the specification claims about it.

* `backend/app/services/fusion.py` — `MultiModalFusionService` (credibility
  score, discrepancy rules, risk tier, insights, attention weights);
* `backend/app/services/audio_features.py` — `AudioFeatureExtractor`
  (stress indicators, six-factor overall confidence, windowed confidence
  timeline, extraction control flow);
* `backend/app/services/orchestrator.py` — `AnalysisOrchestrator.process_job`
  (stage sequencing, progress checkpoints, failure semantics, narrative
  fallback).

Python dictionaries with optional keys are embedded as structures with
`Option` fields; `dict.get(key, default)` becomes `Option.getD`.  Machine
floats are embedded as exact rationals; `round(x, 3)` is embedded with
Mathlib's `round` (round half away from midpoint ties does not occur at the
values any claim touches, so the half-even tiebreak of Python's `round` is
immaterial here).  Calls into external libraries (librosa decoding and
per-window acoustic analysis, the Claude narrative collaborator, the
database commit) are embedded as explicit outcome oracles, so that the
exception-flow of the Python code is reproduced faithfully.
-/

set_option maxHeartbeats 1000000
set_option maxRecDepth 8192
set_option linter.unusedVariables false
set_option autoImplicit false

/-- `round(x, 3)` from Python: round to 3 decimal places. -/
def round3 (q : ℚ) : ℚ := ((round (q * 1000) : ℤ) : ℚ) / 1000

/-- `round(x, 2)`-style two-decimal rendering used by f-strings `f"{x:.2f}"`
in the orchestrator fallback (decimal digit rendering of the rounded value). -/
def fmt2 (q : ℚ) : String :=
  let z : ℤ := round (q * 100)
  let sign := if z < 0 then "-" else ""
  let m := z.natAbs
  sign ++ toString (m / 100) ++ "." ++ (if m % 100 < 10 then "0" else "") ++ toString (m % 100)

/-- Python `a or b` on strings: `b` when `a` is `None` or empty. -/
def pyOrStr (a : Option String) (b : String) : String :=
  match a with
  | none => b
  | some s => if s = "" then b else s

/-! ## Data shapes consumed and produced by the fusion service

These model the dictionaries flowing between the services.  Fields read via
`dict.get` are `Option`s (a missing key is `none`). -/

/-- `sentiment_distribution` dict: label → probability. -/
structure SentimentDistribution where
  positive : Option ℚ
  neutral : Option ℚ
  negative : Option ℚ
deriving DecidableEq

/-- One stress indicator emitted by `AudioFeatureExtractor._detect_stress_indicators`. -/
structure StressIndicator where
  type : String
  severity : String
  description : String
  metric : ℚ
deriving DecidableEq

/-- One chart inconsistency record as consumed by the fusion service. -/
structure Inconsistency where
  type : Option String
  description : Option String
  severity : Option String
deriving DecidableEq

/-- The audio-features dict as read by `MultiModalFusionService`
(only `overall_confidence` and `stress_indicators` are read there). -/
structure AudioFeaturesIn where
  overall_confidence : Option ℚ
  stress_indicators : Option (List StressIndicator)
deriving DecidableEq

/-- The sentiment-analysis dict as read by `MultiModalFusionService`. -/
structure SentimentIn where
  overall_sentiment : Option String
  sentiment_distribution : Option SentimentDistribution
  key_topics : Option (List String)
deriving DecidableEq

/-- The chart-analysis dict as read by `MultiModalFusionService`. -/
structure ChartIn where
  chart_descriptions : Option (List String)
  extracted_data : Option (List String)
  inconsistencies : Option (List Inconsistency)
deriving DecidableEq

/-- A cross-modal discrepancy record produced by `_detect_discrepancies`.
The three rule shapes carry different extra keys; keys absent from a given
rule's dict are `none`. -/
structure Discrepancy where
  type : String
  severity : String
  description : String
  modalities : List String
  audio_confidence : Option ℚ
  text_sentiment : Option String
  stress_count : Option ℕ
deriving DecidableEq

/-- `attention_weights` dict keyed by modality. -/
structure AttentionWeights where
  audio : ℚ
  text : ℚ
  chart : ℚ
deriving DecidableEq

/-- The result dict of `fuse_modalities`. -/
structure FusionResult where
  credibility_score : ℚ
  risk_level : String
  discrepancies : List Discrepancy
  fusion_insights : List String
  attention_weights : AttentionWeights
deriving DecidableEq

/-! ## MultiModalFusionService (fusion.py) -/

/-- The constructor weights `self.weights` of `MultiModalFusionService`. -/
def fusionWeightAudio : ℚ := 35 / 100

/-- `self.weights["text"]`. -/
def fusionWeightText : ℚ := 40 / 100

/-- `self.weights["chart"]`. -/
def fusionWeightChart : ℚ := 25 / 100

/-- `MultiModalFusionService._calculate_credibility_score`. -/
def calculate_credibility_score (af : AudioFeaturesIn) (sa : SentimentIn) (ca : ChartIn) : ℚ :=
  let audio_conf := af.overall_confidence.getD (1/2)
  let sentiment_dist := sa.sentiment_distribution
  let text_conf0 := (sentiment_dist.bind SentimentDistribution.positive).getD (33/100)
      - (sentiment_dist.bind SentimentDistribution.negative).getD (33/100) + 1/2
  let text_conf := max 0 (min 1 text_conf0)
  let num_inconsistencies : ℚ := ((ca.inconsistencies.getD []).length : ℚ)
  let chart_conf := max 0 (1 - num_inconsistencies * (15/100))
  round3 (audio_conf * fusionWeightAudio + text_conf * fusionWeightText
    + chart_conf * fusionWeightChart)

/-- `MultiModalFusionService._detect_discrepancies`: the four rules, evaluated
independently, appended in source order. -/
def detect_discrepancies (af : AudioFeaturesIn) (sa : SentimentIn) (ca : ChartIn) :
    List Discrepancy :=
  let audio_conf := af.overall_confidence.getD (1/2)
  let overall_sentiment := sa.overall_sentiment.getD "neutral"
  let d1 : List Discrepancy :=
    if audio_conf < 1/2 ∧ overall_sentiment = "positive" then
      [{ type := "audio_text_mismatch", severity := "high",
         description := "Positive verbal statements but low vocal confidence detected",
         modalities := ["audio", "text"],
         audio_confidence := some audio_conf, text_sentiment := some overall_sentiment,
         stress_count := none }]
    else []
  let d2 : List Discrepancy :=
    if audio_conf > 7/10 ∧ overall_sentiment = "negative" then
      [{ type := "audio_text_mismatch", severity := "medium",
         description := "Negative statements delivered with high confidence - potentially planned bad news",
         modalities := ["audio", "text"],
         audio_confidence := some audio_conf, text_sentiment := some overall_sentiment,
         stress_count := none }]
    else []
  let d3 : List Discrepancy :=
    (ca.inconsistencies.getD []).map (fun incon =>
      { type := "chart_verbal_mismatch",
        severity := incon.severity.getD "medium",
        description := incon.description.getD "Chart data doesn\x27t match verbal statements",
        modalities := ["chart", "text"],
        audio_confidence := none, text_sentiment := none, stress_count := none })
  let stress_indicators := af.stress_indicators.getD []
  let d4 : List Discrepancy :=
    if 2 < stress_indicators.length ∧ overall_sentiment = "positive" then
      [{ type := "stress_sentiment_mismatch", severity := "medium",
         description := "Detected " ++ toString stress_indicators.length
           ++ " vocal stress indicators despite positive language",
         modalities := ["audio", "text"],
         audio_confidence := none, text_sentiment := none,
         stress_count := some stress_indicators.length }]
    else []
  d1 ++ d2 ++ d3 ++ d4

/-- The credibility contribution to the risk score in `_calculate_risk_level`
(the first `if/elif` chain). -/
def credibility_risk_term (credibility_score : ℚ) : ℕ :=
  if credibility_score < 2/5 then 3
  else if credibility_score < 3/5 then 1
  else 0

/-- The stress-count contribution to the risk score in `_calculate_risk_level`
(the last `if/elif` chain). -/
def stress_count_risk_term (stress_count : ℕ) : ℕ :=
  if 3 < stress_count then 2
  else if 1 < stress_count then 1
  else 0

/-- The final classification of the integer risk score in `_calculate_risk_level`. -/
def risk_classify (risk_score : ℕ) : String :=
  if 6 ≤ risk_score then "high"
  else if 3 ≤ risk_score then "medium"
  else "low"

/-- `MultiModalFusionService._calculate_risk_level`. -/
def calculate_risk_level (credibility_score : ℚ) (discrepancies : List Discrepancy)
    (af : AudioFeaturesIn) (sa : SentimentIn) : String :=
  let high_severity_discrepancies := discrepancies.filter (fun d => d.severity == "high")
  let risk_score := credibility_risk_term credibility_score
      + high_severity_discrepancies.length * 2
      + discrepancies.length
      + (if sa.overall_sentiment == some "negative" then 2 else 0)
      + stress_count_risk_term (af.stress_indicators.getD []).length
  risk_classify risk_score

/-- `MultiModalFusionService._generate_fusion_insights`. -/
def generate_fusion_insights (af : AudioFeaturesIn) (sa : SentimentIn) (ca : ChartIn)
    (discrepancies : List Discrepancy) : List String :=
  let audio_conf := af.overall_confidence.getD (1/2)
  let i1 : List String :=
    if audio_conf > 7/10 then
      ["Executive team demonstrated high vocal confidence throughout the call"]
    else if audio_conf < 2/5 then
      ["Vocal analysis reveals hesitation and uncertainty in delivery"]
    else []
  let sentiment := sa.overall_sentiment.getD "neutral"
  let sentiment_dist := sa.sentiment_distribution
  let i2 : List String :=
    if sentiment = "positive" ∧ (sentiment_dist.bind SentimentDistribution.positive).getD 0 > 3/5 then
      ["Overwhelmingly positive language used throughout the call"]
    else if sentiment = "negative" then
      ["Negative sentiment detected - management acknowledging challenges"]
    else []
  let i3 : List String :=
    if 0 < discrepancies.length then
      ["Found " ++ toString discrepancies.length ++ " cross-modal inconsistencies requiring attention"]
    else []
  let i4 : List String :=
    if (ca.chart_descriptions.getD []) ≠ [] then
      ["Visual data analysis of " ++ toString (ca.chart_descriptions.getD []).length ++ " charts completed"]
    else []
  let stress_indicators := af.stress_indicators.getD []
  let i5 : List String :=
    if 2 < stress_indicators.length then
      ["Multiple vocal stress indicators detected: "
        ++ String.intercalate ", " ((stress_indicators.take 3).map StressIndicator.type)]
    else []
  i1 ++ i2 ++ i3 ++ i4 ++ i5

/-- `MultiModalFusionService._calculate_attention_weights`: base 0.33 each,
information-richness bumps, renormalization, rounding to 3 decimals. -/
def calculate_attention_weights (af : AudioFeaturesIn) (sa : SentimentIn) (ca : ChartIn) :
    AttentionWeights :=
  let audio1 : ℚ := if 2 < (af.stress_indicators.getD []).length then 33/100 + 1/10 else 33/100
  let text1 : ℚ := if 3 < (sa.key_topics.getD []).length then 33/100 + 1/10 else 33/100
  let chart1 : ℚ := if 0 < (ca.inconsistencies.getD []).length then 33/100 + 15/100 else 33/100
  let total := audio1 + text1 + chart1
  { audio := round3 (audio1 / total), text := round3 (text1 / total),
    chart := round3 (chart1 / total) }

/-- `MultiModalFusionService.fuse_modalities` (the successful body; the service
prints progress messages, which carry no semantic content). -/
def fuse_modalities (af : AudioFeaturesIn) (sa : SentimentIn) (ca : ChartIn) : FusionResult :=
  let credibility_score := calculate_credibility_score af sa ca
  let discrepancies := detect_discrepancies af sa ca
  let risk_level := calculate_risk_level credibility_score discrepancies af sa
  let fusion_insights := generate_fusion_insights af sa ca discrepancies
  let attention_weights := calculate_attention_weights af sa ca
  { credibility_score := credibility_score, risk_level := risk_level,
    discrepancies := discrepancies, fusion_insights := fusion_insights,
    attention_weights := attention_weights }

/-- `fuse_modalities` with its `try/except`-and-re-raise wrapper made explicit:
every operation in the body is total on well-typed inputs, so the `except`
branch (re-raising "Failed to fuse modalities") is unreachable. -/
def fuse_modalitiesE (af : AudioFeaturesIn) (sa : SentimentIn) (ca : ChartIn) :
    Except String FusionResult := do
  let credibility_score := calculate_credibility_score af sa ca
  let discrepancies := detect_discrepancies af sa ca
  let risk_level := calculate_risk_level credibility_score discrepancies af sa
  let fusion_insights := generate_fusion_insights af sa ca discrepancies
  let attention_weights := calculate_attention_weights af sa ca
  let result : FusionResult :=
    { credibility_score := credibility_score, risk_level := risk_level,
      discrepancies := discrepancies, fusion_insights := fusion_insights,
      attention_weights := attention_weights }
  return result

/-- Modelled from the claim's words (for comparison with the source): attention
weights that *start at 1/3 each*; audio bumped when the stress-indicator count
exceeds 2, text bumped when the *distinct* key-topic count exceeds 3, chart
bumped when any inconsistency exists; then renormalized to sum 1 and rounded
to 3 decimals. -/
def attention_weights_claimed_third (af : AudioFeaturesIn) (sa : SentimentIn) (ca : ChartIn) :
    AttentionWeights :=
  let audio1 : ℚ := if 2 < (af.stress_indicators.getD []).length then 1/3 + 1/10 else 1/3
  let text1 : ℚ := if 3 < (sa.key_topics.getD []).dedup.length then 1/3 + 1/10 else 1/3
  let chart1 : ℚ := if 0 < (ca.inconsistencies.getD []).length then 1/3 + 15/100 else 1/3
  let total := audio1 + text1 + chart1
  { audio := round3 (audio1 / total), text := round3 (text1 / total),
    chart := round3 (chart1 / total) }

/-- Modelled from the amended claim's words: attention weights that start at
0.33 each; audio bumped when the stress-indicator count exceeds 2, text bumped
when the key-topic *list length* (duplicates counted) exceeds 3, chart bumped
when any inconsistency exists; then renormalized and rounded. -/
def attention_weights_claimed_033 (af : AudioFeaturesIn) (sa : SentimentIn) (ca : ChartIn) :
    AttentionWeights :=
  let audio1 : ℚ := if 2 < (af.stress_indicators.getD []).length then 33/100 + 1/10 else 33/100
  let text1 : ℚ := if 3 < (sa.key_topics.getD []).length then 33/100 + 1/10 else 33/100
  let chart1 : ℚ := if 0 < (ca.inconsistencies.getD []).length then 33/100 + 15/100 else 33/100
  let total := audio1 + text1 + chart1
  { audio := round3 (audio1 / total), text := round3 (text1 / total),
    chart := round3 (chart1 / total) }

/-! ## AudioFeatureExtractor (audio_features.py)

The per-clip feature dicts produced by the sub-extractors, restricted to the
keys that the embedded functions read. -/

/-- The pitch dict from `_extract_pitch` as read downstream. -/
structure PitchFeatures where
  mean : Option ℚ
  variation : Option ℚ
deriving DecidableEq

/-- The energy dict from `_extract_energy` as read downstream. -/
structure EnergyFeatures where
  rms_mean : Option ℚ
  rms_std : Option ℚ
deriving DecidableEq

/-- The voice-quality dict from `_extract_voice_quality` as read downstream. -/
structure VoiceQualityFeatures where
  jitter : Option ℚ
  hnr : Option ℚ
deriving DecidableEq

/-- The prosodic dict from `_extract_prosodic_features` as read downstream. -/
structure ProsodicFeatures where
  speech_rate : Option ℚ
  pause_percentage : Option ℚ
deriving DecidableEq

/-- One entry of the confidence timeline of
`_compute_confidence_timeline_windowed`. -/
structure TimelineWindow where
  time : ℚ
  confidence : ℚ
  pitch_stability : ℚ
  energy_level : ℚ
  voice_quality : ℚ
deriving DecidableEq

/-- `AudioFeatureExtractor._detect_stress_indicators` (the `duration` argument
is accepted but never read by the source, as here). -/
def detect_stress_indicators (pitch : PitchFeatures) (energy : EnergyFeatures)
    (voice_quality : VoiceQualityFeatures) (duration : ℚ) : List StressIndicator :=
  let l1 : List StressIndicator :=
    if pitch.variation.getD 0 > 15/100 then
      [{ type := "high_pitch_variation", severity := "medium",
         description := "Elevated pitch variation may indicate stress or uncertainty",
         metric := pitch.variation.getD 0 }]
    else []
  let l2 : List StressIndicator :=
    if voice_quality.jitter.getD 0 > 10 then
      [{ type := "vocal_tension", severity := "medium",
         description := "High jitter suggests vocal tension or nervousness",
         metric := voice_quality.jitter.getD 0 }]
    else []
  let l3 : List StressIndicator :=
    if energy.rms_mean.getD 0 < 2/100 then
      [{ type := "low_energy", severity := "low",
         description := "Low vocal energy may indicate hesitation",
         metric := energy.rms_mean.getD 0 }]
    else []
  l1 ++ l2 ++ l3

/-- The pitch-range factor of `_calculate_overall_confidence_6factor`:
1 on [100,150] Hz, linear falloff to 0 at 0 Hz below and at 300 Hz above. -/
def pitch_range_score (pitch_mean : ℚ) : ℚ :=
  if 100 ≤ pitch_mean ∧ pitch_mean ≤ 150 then 1
  else if pitch_mean < 100 then max 0 (pitch_mean / 100)
  else max 0 (1 - (pitch_mean - 150) / 150)

/-- `AudioFeatureExtractor._calculate_overall_confidence_6factor` (the
`timeline` argument is accepted but never read by the source, as here). -/
def calculate_overall_confidence_6factor (timeline : List TimelineWindow)
    (pitch : PitchFeatures) (energy : EnergyFeatures)
    (voice_quality : VoiceQualityFeatures) (prosodic : ProsodicFeatures)
    (stress_indicators : List StressIndicator) : ℚ :=
  let pitch_variation := pitch.variation.getD (1/2)
  let f0_stability := max 0 (1 - pitch_variation)
  let rms_mean := energy.rms_mean.getD (5/100)
  let rms_std := energy.rms_std.getD (2/100)
  let energy_consistency := max 0 (1 - (if rms_mean > 0 then rms_std / rms_mean else 1/2))
  let speech_rate := prosodic.speech_rate.getD 2
  let rate_deviation := |speech_rate - 13/5| / (13/5)
  let speech_rate_score := max 0 (1 - rate_deviation)
  let pause_pct := prosodic.pause_percentage.getD 20
  let hesitation_score := max 0 (1 - pause_pct / 50)
  let pitch_mean := pitch.mean.getD 125
  let hnr := voice_quality.hnr.getD 20
  let hnr_score := min (max ((hnr - 10) / 30) 0) 1
  let overall_confidence := f0_stability * (25/100) + energy_consistency * (20/100)
    + speech_rate_score * (15/100) + hesitation_score * (20/100)
    + pitch_range_score pitch_mean * (10/100) + hnr_score * (10/100)
  let penalty := (stress_indicators.length : ℚ) * (3/100)
  round3 (max 0 (min 1 (overall_confidence - penalty)))

/-- The six-factor confidence formula exactly as the specification claim words
it: round(clamp(weighted sum − 0.03·#stress, 0, 1), 3), with the energy term
written as the raw quotient `rms_std / rms_mean` (meaningful for
`rms_mean > 0`) and the pitch-range factor being the linear-falloff score. -/
def claimed_overall_confidence (variation rms_mean rms_std speech_rate pause_pct
    pitch_mean hnr : ℚ) (nstress : ℕ) : ℚ :=
  round3 (min 1 (max 0 (
    (25/100) * max 0 (1 - variation)
    + (20/100) * max 0 (1 - rms_std / rms_mean)
    + (15/100) * max 0 (1 - |speech_rate - 13/5| / (13/5))
    + (20/100) * max 0 (1 - pause_pct / 50)
    + (10/100) * pitch_range_score pitch_mean
    + (10/100) * min (max ((hnr - 10) / 30) 0) 1
    - (3/100) * (nstress : ℚ))))

/-! ## Confidence timeline (windowed)

`_compute_confidence_timeline_windowed(y, sr, duration)` iterates over
1-second windows `i = 0 … max(int(duration),1) - 1`; the samples of window
`i` are `y[i*sr : (i+1)*sr]`; a window with fewer than `sr // 10` samples is
skipped; otherwise the window is analyzed by library calls inside a `try`,
and on any exception the window is appended with all four fields 0.5.
The per-window acoustic analysis is a bundle of librosa calls on the window's
samples; it is embedded as an oracle `analysis : ℕ → WindowAnalysis` giving,
for each window index, either the computed (pitch_stability, energy_level,
voice_stability) triple or the exception outcome. -/

/-- Outcome of the in-`try` acoustic analysis of one window. -/
inductive WindowAnalysis where
  | fail : WindowAnalysis
  | ok (pitch_stability energy_level voice_stability : ℚ) : WindowAnalysis
deriving DecidableEq

/-- Number of samples of window `i`: `len(y[i*sr : (i+1)*sr])` for a signal
of `n` samples. -/
def window_len (n sr i : ℕ) : ℕ := min n ((i + 1) * sr) - i * sr

/-- `max(int(duration), 1)` where `duration = n / sr`. -/
def num_intervals (n sr : ℕ) : ℕ := max (n / sr) 1

/-- The window indices that survive the `len(y_window) < sr // 10` skip. -/
def kept_window_indices (n sr : ℕ) : List ℕ :=
  (List.range (num_intervals n sr)).filter (fun i => decide (sr / 10 ≤ window_len n sr i))

/-- The timeline entry appended for window `i`: the computed entry on
success (confidence = clamp(0.4·ps + 0.3·el + 0.3·vs), all scores rounded to
3 decimals, time = i + 0.5), the all-0.5 fallback entry on exception. -/
def window_entry (i : ℕ) (a : WindowAnalysis) : TimelineWindow :=
  match a with
  | .fail =>
      { time := (i : ℚ) + 1/2, confidence := 1/2, pitch_stability := 1/2,
        energy_level := 1/2, voice_quality := 1/2 }
  | .ok ps el vs =>
      let confidence := max 0 (min 1 (ps * (4/10) + el * (3/10) + vs * (3/10)))
      { time := (i : ℚ) + 1/2, confidence := round3 confidence,
        pitch_stability := round3 ps, energy_level := round3 el,
        voice_quality := round3 vs }

/-- `AudioFeatureExtractor._compute_confidence_timeline_windowed` for a
decoded signal of `n` samples at rate `sr`. -/
def compute_confidence_timeline_windowed (n sr : ℕ) (analysis : ℕ → WindowAnalysis) :
    List TimelineWindow :=
  (kept_window_indices n sr).map (fun i => window_entry i (analysis i))

/-! ## extract_features control flow

`extract_features` runs, inside one big `try` whose `except` re-raises
`"Failed to extract audio features: " ++ str(e)`:
`librosa.load`, then `_extract_mfccs`, `_extract_pitch`, `_extract_energy`,
`_extract_voice_quality` (spectral statistics, the pyin-based jitter, the
rms-based shimmer, and — inside an *inner* `try` — the HPSS-based HNR,
defaulting to 20 dB when the separation raises and to 40 dB when the
percussive energy is zero), `_extract_prosodic_features`, the windowed
confidence timeline, `_detect_stress_indicators` and
`_calculate_overall_confidence_6factor`.  Each external library call is
embedded as an `Except`-valued oracle recording what that call returned (or
raised) on this run; the numeric summaries a successful call produces are the
oracle's payload.  `log10` abstracts the base-10 logarithm used by the HNR
formula `10 * log10(harmonic_energy / percussive_energy)`. -/

/-- The outcomes of the library calls inside one `extract_features` run. -/
structure ExtractEnv where
  /-- `librosa.load`: number of decoded samples, or a decode exception. -/
  load : Except String ℕ
  /-- `_extract_mfccs` (cepstral statistics; summaries not read downstream). -/
  mfccs : Except String Unit
  /-- `_extract_pitch` (pyin tracking and its summary statistics). -/
  pitch : Except String PitchFeatures
  /-- `_extract_energy` (rms / zero-crossing statistics). -/
  energy : Except String EnergyFeatures
  /-- The spectral centroid/rolloff/bandwidth/contrast calls of
  `_extract_voice_quality` (summaries not read downstream). -/
  spectral : Except String Unit
  /-- The pyin call of `_extract_voice_quality` and the jitter it yields. -/
  vq_jitter : Except String ℚ
  /-- The rms call of `_extract_voice_quality` and the shimmer it yields. -/
  vq_shimmer : Except String ℚ
  /-- `librosa.effects.hpss`: (harmonic energy, percussive energy); this call
  sits inside the inner `try` of `_extract_voice_quality`. -/
  hpss : Except String (ℚ × ℚ)
  /-- `_extract_prosodic_features`. -/
  prosodic : Except String ProsodicFeatures
  /-- The per-window acoustic analysis of the confidence timeline. -/
  window : ℕ → WindowAnalysis

/-- The features record returned by a successful `extract_features` run
(the cepstral and spectral summary blocks are opaque to every claim and are
not tracked). -/
structure AudioFeaturesResult where
  pitch : PitchFeatures
  energy : EnergyFeatures
  jitter : ℚ
  shimmer : ℚ
  hnr : ℚ
  prosodic : ProsodicFeatures
  confidence_timeline : List TimelineWindow
  stress_indicators : List StressIndicator
  overall_confidence : ℚ
  duration_samples : ℕ

/-- The HNR computation of `_extract_voice_quality`: `10·log10(h/p)` when the
percussive energy is positive, 40 dB when it is zero, 20 dB when the HPSS
separation itself raised. -/
def hnr_of_hpss (log10 : ℚ → ℚ) (hpss : Except String (ℚ × ℚ)) : ℚ :=
  match hpss with
  | .ok (h, p) => if 0 < p then 10 * log10 (h / p) else 40
  | .error _ => 20

/-- The body of `extract_features` (the contents of the outer `try`),
sequencing the library calls in source order; the sample rate `sr` is
`settings.SAMPLE_RATE`. -/
def extract_features_body (log10 : ℚ → ℚ) (env : ExtractEnv) (sr : ℕ) :
    Except String AudioFeaturesResult :=
  match env.load with
  | .error e => .error e
  | .ok n =>
  match env.mfccs with
  | .error e => .error e
  | .ok _ =>
  match env.pitch with
  | .error e => .error e
  | .ok pitch =>
  match env.energy with
  | .error e => .error e
  | .ok energy =>
  match env.spectral with
  | .error e => .error e
  | .ok _ =>
  match env.vq_jitter with
  | .error e => .error e
  | .ok jitter =>
  match env.vq_shimmer with
  | .error e => .error e
  | .ok shimmer =>
  let hnr := hnr_of_hpss log10 env.hpss
  match env.prosodic with
  | .error e => .error e
  | .ok prosodic =>
  let voice_quality : VoiceQualityFeatures := { jitter := some jitter, hnr := some hnr }
  let confidence_timeline := compute_confidence_timeline_windowed n sr env.window
  let stress_indicators := detect_stress_indicators pitch energy voice_quality ((n : ℚ) / (sr : ℚ))
  let overall_confidence := calculate_overall_confidence_6factor confidence_timeline
      pitch energy voice_quality prosodic stress_indicators
  .ok { pitch := pitch, energy := energy, jitter := jitter, shimmer := shimmer,
        hnr := hnr, prosodic := prosodic, confidence_timeline := confidence_timeline,
        stress_indicators := stress_indicators, overall_confidence := overall_confidence,
        duration_samples := n }

/-- `AudioFeatureExtractor.extract_features`: the outer `try/except` turns any
exception `e` of the body into `Exception("Failed to extract audio features: "
+ str(e))`. -/
def extract_features (log10 : ℚ → ℚ) (env : ExtractEnv) (sr : ℕ) :
    Except String AudioFeaturesResult :=
  match extract_features_body log10 env sr with
  | .ok r => .ok r
  | .error e => .error ("Failed to extract audio features: " ++ e)

/-! ## AnalysisOrchestrator.process_job (orchestrator.py)

The seven stages run sequentially inside one big `try`; each stage stores its
output on the job record and commits a progress checkpoint.  Stage bodies are
service calls; each is embedded as an `Except`-valued oracle recording what
that call returned (or raised) on this run.  Stage 4 consults its oracle only
when chart inputs were supplied, otherwise it uses the literal empty chart
summary.  Stage 6 (`claude_service.generate_comprehensive_analysis`) has its
own inner `try/except` building a fallback result; every other exception
reaches the outer handler, which re-reads the job and commits
`status="failed"`, `error_message=str(e)`, `completed_at=utcnow()`.  Stage 7
only assigns the terminal fields and commits; the commit itself is the only
operation there that can raise, and is given an oracle too.  Timestamps are
tracked as set/unset flags (wall-clock values carry no claim content). -/

/-- The transcription-stage output as read later by the orchestrator. -/
structure TranscriptResult where
  full_text : String
  num_segments : ℕ
deriving DecidableEq

/-- The parsed narrative analysis produced by the Claude collaborator (or by
the stage-6 fallback). -/
structure ClaudeResults where
  executive_summary : String
  risk_indicators : List String
  opportunities : List String
  red_flags : List String
  confidence_assessment : String
  overall_recommendation : String
deriving DecidableEq

/-- One `process_job` run: the job's inputs and what every stage's service
call returned (or raised) on this run. -/
structure JobRun where
  company_name : Option String
  has_chart_paths : Bool
  transcription : Except String TranscriptResult
  feature_extraction : Except String AudioFeaturesIn
  sentiment : Except String SentimentIn
  chart : Except String ChartIn
  fusion : Except String FusionResult
  narrative : Except String ClaudeResults
  finalize_commit : Except String Unit

/-- The job record's core-relevant fields. -/
structure JobState where
  status : String
  progress : ℚ
  error_message : Option String
  started_at_set : Bool
  completed_at_set : Bool
  transcript : Option TranscriptResult
  audio_features : Option AudioFeaturesIn
  sentiment_analysis : Option SentimentIn
  chart_analysis : Option ChartIn
  fusion_results : Option FusionResult
  claude_analysis : Option ClaudeResults
  overall_confidence : Option ℚ
  overall_sentiment : Option String
  risk_level : Option String
deriving DecidableEq

/-- The stage-6 fallback `claude_results` dict built inside the inner
`except` handler, from the fusion results, the company name, the exception
message, the audio confidence and the overall sentiment. -/
def fallback_claude_results (company_name : Option String) (err : String)
    (fusion : FusionResult) (af : AudioFeaturesIn) (sa : SentimentIn) : ClaudeResults :=
  { executive_summary := "Multi-modal analysis complete for "
      ++ pyOrStr company_name "the company"
      ++ ". Overall credibility score: " ++ fmt2 fusion.credibility_score
      ++ ". Risk level: " ++ fusion.risk_level
      ++ ". Claude AI deep analysis failed: " ++ err.take 200,
    risk_indicators := (fusion.discrepancies.take 3).map Discrepancy.description,
    opportunities := [],
    red_flags := [],
    confidence_assessment := "Multi-modal credibility: " ++ fmt2 fusion.credibility_score
      ++ "/1.0, Audio confidence: " ++ fmt2 (af.overall_confidence.getD 0)
      ++ "/1.0, Sentiment: " ++ sa.overall_sentiment.getD "unknown",
    overall_recommendation := "Review detailed multi-modal analysis sections for insights." }

/-- The outer exception handler of `process_job`: re-read the job and commit
`status="failed"`, the exception message and the completion timestamp on top
of the last committed state. -/
def fail_state (s : JobState) (e : String) : JobState :=
  { s with status := "failed", error_message := some e, completed_at_set := true }

/-- The empty chart summary used when no chart inputs were supplied. -/
def empty_chart_results : ChartIn :=
  { chart_descriptions := some [], extracted_data := some [], inconsistencies := some [] }

/-- Stage 4 of `process_job`: the chart service is consulted only when chart
inputs were supplied, otherwise the stage output is the literal empty chart
summary. -/
def stage4_result (run : JobRun) : Except String ChartIn :=
  if run.has_chart_paths then run.chart else .ok empty_chart_results

/-- `AnalysisOrchestrator.process_job` for a job that exists: final committed
job record of the run. -/
def process_job (run : JobRun) : JobState :=
  let s0 : JobState :=
    { status := "processing", progress := 0, error_message := none,
      started_at_set := true, completed_at_set := false,
      transcript := none, audio_features := none, sentiment_analysis := none,
      chart_analysis := none, fusion_results := none, claude_analysis := none,
      overall_confidence := none, overall_sentiment := none, risk_level := none }
  match run.transcription with
  | .error e => fail_state s0 e
  | .ok tr =>
    let s1 := { s0 with transcript := some tr, progress := 20 }
    match run.feature_extraction with
    | .error e => fail_state s1 e
    | .ok af =>
      let s2 := { s1 with audio_features := some af, progress := 35 }
      match run.sentiment with
      | .error e => fail_state s2 e
      | .ok sa =>
        let s3 := { s2 with sentiment_analysis := some sa, progress := 50 }
        match stage4_result run with
        | .error e => fail_state s3 e
        | .ok ca =>
          let s4 := { s3 with chart_analysis := some ca, progress := 65 }
          match run.fusion with
          | .error e => fail_state s4 e
          | .ok fr =>
            let s5 :=
              { s4 with
                fusion_results := some fr,
                overall_confidence := af.overall_confidence,
                overall_sentiment := sa.overall_sentiment,
                risk_level := some fr.risk_level, progress := 75 }
            let claude_results :=
              match run.narrative with
              | .ok cr => cr
              | .error e => fallback_claude_results run.company_name e fr af sa
            let s6 := { s5 with claude_analysis := some claude_results, progress := 90 }
            match run.finalize_commit with
            | .error e => fail_state s6 e
            | .ok _ =>
              { s6 with status := "completed", completed_at_set := true, progress := 100 }

/-! ## Derived notions and concrete instances used by the verification -/

/-- The order low < medium < high on risk tiers, as a rank function. -/
def risk_rank (r : String) : ℕ :=
  if r = "high" then 2 else if r = "medium" then 1 else 0

/-- All the library calls of `extract_features` that sit *outside* any inner
`try` succeeded (decode, cepstral, pitch, energy, spectral voice-quality,
jitter, shimmer, prosody). -/
def extract_fatal_calls_ok (env : ExtractEnv) : Prop :=
  (∃ v, env.load = .ok v) ∧ (∃ v, env.mfccs = .ok v) ∧ (∃ v, env.pitch = .ok v)
  ∧ (∃ v, env.energy = .ok v) ∧ (∃ v, env.spectral = .ok v)
  ∧ (∃ v, env.vq_jitter = .ok v) ∧ (∃ v, env.vq_shimmer = .ok v)
  ∧ (∃ v, env.prosodic = .ok v)

/-- The specification's concrete fusion scenario: audio confidence 0.3 with no
stress indicators. -/
def afScenario : AudioFeaturesIn :=
  { overall_confidence := some (3/10), stress_indicators := some [] }

/-- The scenario's sentiment input: positive, distribution 0.7/0.2/0.1, no
key topics. -/
def saScenario : SentimentIn :=
  { overall_sentiment := some "positive",
    sentiment_distribution := some
      { positive := some (7/10), neutral := some (2/10), negative := some (1/10) },
    key_topics := some [] }

/-- The scenario's sentiment input with the key-topic list holding four
copies of one topic (list length 4, distinct count 1). -/
def saDuplicatedTopics : SentimentIn :=
  { saScenario with key_topics := some ["growth", "growth", "growth", "growth"] }

/-- The scenario's chart input: no charts, no inconsistencies. -/
def caScenario : ChartIn :=
  { chart_descriptions := some [], extracted_data := some [], inconsistencies := some [] }

/-- A chart input carrying exactly one inconsistency. -/
def caOneInconsistency : ChartIn :=
  { chart_descriptions := some [], extracted_data := some [],
    inconsistencies := some [{ type := some "trend_mismatch",
                               description := some "Reported growth contradicts the chart trend",
                               severity := some "medium" }] }

/-- An `extract_features` run on which every library call succeeds. -/
def envBase : ExtractEnv :=
  { load := .ok 32000,
    mfccs := .ok (),
    pitch := .ok { mean := some 120, variation := some (1/10) },
    energy := .ok { rms_mean := some (5/100), rms_std := some (1/100) },
    spectral := .ok (),
    vq_jitter := .ok 5,
    vq_shimmer := .ok (1/100),
    hpss := .ok (9, 1),
    prosodic := .ok { speech_rate := some (13/5), pause_percentage := some 10 },
    window := fun _ => .ok (9/10) (6/10) (8/10) }

/-- A run whose signal decodes fine but whose pitch sub-feature computation
raises. -/
def envPitchFails : ExtractEnv :=
  { envBase with pitch := .error "pyin decomposition failed" }

/-- A run on which the HPSS separation raises and window 0's analysis raises,
all fatal calls succeeding. -/
def envDegraded : ExtractEnv :=
  { envBase with
    hpss := .error "hpss separation failed",
    window := fun i => if i = 0 then .fail else .ok (9/10) (6/10) (8/10) }

/-- A concrete fusion result with one (high-severity) discrepancy. -/
def frSample : FusionResult :=
  { credibility_score := 755/1000, risk_level := "medium",
    discrepancies := [{ type := "audio_text_mismatch", severity := "high",
                        description := "Positive verbal statements but low vocal confidence detected",
                        modalities := ["audio", "text"],
                        audio_confidence := some (3/10), text_sentiment := some "positive",
                        stress_count := none }],
    fusion_insights := [],
    attention_weights := { audio := 333/1000, text := 333/1000, chart := 333/1000 } }

/-- A concrete transcription-stage output. -/
def trSample : TranscriptResult := { full_text := "q3 results call", num_segments := 4 }

/-- A concrete successful narrative-stage output. -/
def claudeSample : ClaudeResults :=
  { executive_summary := "All good", risk_indicators := [], opportunities := [],
    red_flags := [], confidence_assessment := "fine", overall_recommendation := "hold" }

/-- A job run on which every stage succeeds. -/
def runBase : JobRun :=
  { company_name := some "Acme Corp",
    has_chart_paths := false,
    transcription := .ok trSample,
    feature_extraction := .ok afScenario,
    sentiment := .ok saScenario,
    chart := .ok caScenario,
    fusion := .ok frSample,
    narrative := .ok claudeSample,
    finalize_commit := .ok () }

/-- A run whose narrative stage raises with one message. -/
def runNarrativeFailsA : JobRun := { runBase with narrative := .error "api timeout" }

/-- The same run except the narrative stage raises with another message. -/
def runNarrativeFailsB : JobRun := { runBase with narrative := .error "rate limited!" }

/-- A run whose feature-extraction stage raises. -/
def runFeatureFails : JobRun :=
  { runBase with feature_extraction := .error "Failed to extract audio features: decode error" }

/-! ## Helper lemmas -/

/-- Clamping to [0,1] can be written with the max and the min in either
order. -/
theorem clamp_comm (x : ℚ) : max 0 (min 1 x) = min 1 (max 0 x) := by
  rw [max_min_distrib_left]
  norm_num

/-- `round3` sends a nonnegative value to a nonnegative value. -/
theorem round3_nonneg {q : ℚ} (h : 0 ≤ q) : 0 ≤ round3 q := by
  unfold round3
  have h1 : (0:ℤ) ≤ round (q * 1000) := by
    rw [round_eq]
    exact Int.le_floor.mpr (by push_cast; linarith)
  have h2 : (0:ℚ) ≤ ((round (q * 1000) : ℤ) : ℚ) := by exact_mod_cast h1
  positivity

/-- `round3` sends a value at most 1 to a value at most 1. -/
theorem round3_le_one {q : ℚ} (h : q ≤ 1) : round3 q ≤ 1 := by
  unfold round3
  have h1 : round (q * 1000) ≤ 1000 := by
    rw [round_eq]
    have h2 : ⌊q * 1000 + 1/2⌋ < 1001 := Int.floor_lt.mpr (by push_cast; linarith)
    omega
  rw [div_le_one (by norm_num)]
  exact_mod_cast h1

/-- Rounding to 3 decimals moves a value by at most half a thousandth. -/
theorem abs_round3_sub_le (q : ℚ) : |round3 q - q| ≤ 1/2000 := by
  unfold round3
  have h := abs_sub_round (q * 1000)
  rw [abs_sub_comm] at h
  have heq : ((round (q * 1000) : ℤ) : ℚ) / 1000 - q
      = (((round (q * 1000) : ℤ) : ℚ) - q * 1000) / 1000 := by ring
  rw [heq, abs_div]
  have h2 : |(1000:ℚ)| = 1000 := by norm_num
  rw [h2]
  linarith

/-- The sample count of window `i` is the remaining signal clipped to one
window. -/
theorem window_len_eq (n sr i : ℕ) : window_len n sr i = min (n - i * sr) sr := by
  unfold window_len
  have h : (i + 1) * sr = i * sr + sr := by ring
  rw [h]
  omega

/-- Every emitted window — computed or fallback — carries time `i + 0.5`. -/
theorem window_entry_time (i : ℕ) (a : WindowAnalysis) :
    (window_entry i a).time = (i : ℚ) + 1/2 := by
  cases a <;> rfl

/-- The rank of tier "high". -/
theorem risk_rank_high : risk_rank "high" = 2 := rfl

/-- The rank of tier "medium". -/
theorem risk_rank_medium : risk_rank "medium" = 1 := by
  unfold risk_rank
  rw [if_neg (by decide), if_pos rfl]

/-- The rank of tier "low". -/
theorem risk_rank_low : risk_rank "low" = 0 := by
  unfold risk_rank
  rw [if_neg (by decide), if_neg (by decide)]

/-- The risk-score classification is monotone: a larger score never yields a
lower tier. -/
theorem risk_rank_classify_mono {s1 s2 : ℕ} (h : s1 ≤ s2) :
    risk_rank (risk_classify s1) ≤ risk_rank (risk_classify s2) := by
  unfold risk_classify
  split_ifs <;>
    simp only [risk_rank_high, risk_rank_medium, risk_rank_low] <;> omega

/-! ## The specification claims -/

/-- C2 — Concrete fusion scenario: with audio overall_confidence 0.3, overall
sentiment "positive" with distribution 0.7/0.2/0.1, no chart inconsistencies,
an empty stress list and no key topics, `fuse_modalities` returns credibility
score 0.755, exactly one discrepancy — of type "audio_text_mismatch" and
severity "high" (rule 1) — and risk level "medium". -/
theorem C2_fusion_scenario :
    (fuse_modalities afScenario saScenario caScenario).credibility_score = 755/1000
    ∧ (fuse_modalities afScenario saScenario caScenario).discrepancies.map
        (fun d => (d.type, d.severity)) = [("audio_text_mismatch", "high")]
    ∧ (fuse_modalities afScenario saScenario caScenario).risk_level = "medium" := by
  refine ⟨?_, ?_, ?_⟩ <;>
    simp only [fuse_modalities, calculate_credibility_score, detect_discrepancies,
      calculate_risk_level, credibility_risk_term, stress_count_risk_term, risk_classify,
      afScenario, saScenario, caScenario, fusionWeightAudio, fusionWeightText,
      fusionWeightChart, round3, Option.getD, Option.bind] <;>
    norm_num [round_eq] <;> simp

/-- C9 — Stress-indicator thresholds are independent strict comparisons:
high_pitch_variation (severity medium) is emitted iff pitch variation is
strictly greater than 0.15 (so variation exactly 0.15 does not trigger it),
vocal_tension (severity medium) iff jitter is strictly greater than 10, and
low_energy (severity low) iff mean RMS is strictly less than 0.02; the three
conditions hold simultaneously for every input, so each matching indicator is
emitted regardless of the others. -/
theorem C9_stress_thresholds (pitch : PitchFeatures) (energy : EnergyFeatures)
    (vq : VoiceQualityFeatures) (d : ℚ) :
    ((detect_stress_indicators pitch energy vq d).any
        (fun s => s.type == "high_pitch_variation" && s.severity == "medium")
      ↔ pitch.variation.getD 0 > 15/100)
    ∧ ((detect_stress_indicators pitch energy vq d).any
        (fun s => s.type == "vocal_tension" && s.severity == "medium")
      ↔ vq.jitter.getD 0 > 10)
    ∧ ((detect_stress_indicators pitch energy vq d).any
        (fun s => s.type == "low_energy" && s.severity == "low")
      ↔ energy.rms_mean.getD 0 < 2/100) := by
  unfold detect_stress_indicators
  split_ifs with h1 h2 h3 <;> simp_all

/-- C10 — Implicit bound on stress indicators: every list produced by
`_detect_stress_indicators` has at most one indicator of each of the three
types and hence length at most 3, so the risk-score branch adding 2 for a
stress count above 3 can never fire on extractor-produced features: the
stress-count contribution to the risk score is at most +1. -/
theorem C10_stress_indicator_bound (pitch : PitchFeatures) (energy : EnergyFeatures)
    (vq : VoiceQualityFeatures) (d : ℚ) :
    (detect_stress_indicators pitch energy vq d).length ≤ 3
    ∧ (detect_stress_indicators pitch energy vq d).countP
        (fun s => s.type == "high_pitch_variation") ≤ 1
    ∧ (detect_stress_indicators pitch energy vq d).countP
        (fun s => s.type == "vocal_tension") ≤ 1
    ∧ (detect_stress_indicators pitch energy vq d).countP
        (fun s => s.type == "low_energy") ≤ 1
    ∧ ¬ 3 < (detect_stress_indicators pitch energy vq d).length
    ∧ stress_count_risk_term (detect_stress_indicators pitch energy vq d).length ≤ 1 := by
  unfold detect_stress_indicators stress_count_risk_term
  split_ifs <;> simp_all [List.countP_cons]

/-- C7 — Risk-tier monotonicity: holding the discrepancy list, the audio
features (hence the stress list) and the sentiment fixed, the tier computed
by `_calculate_risk_level` is antitone in the credibility score under the
order low < medium < high. -/
theorem C7_risk_tier_antitone (c1 c2 : ℚ) (discrepancies : List Discrepancy)
    (af : AudioFeaturesIn) (sa : SentimentIn) (h : c1 ≤ c2) :
    risk_rank (calculate_risk_level c2 discrepancies af sa)
      ≤ risk_rank (calculate_risk_level c1 discrepancies af sa) := by
  have hterm : credibility_risk_term c2 ≤ credibility_risk_term c1 := by
    unfold credibility_risk_term
    split_ifs <;> first | omega | linarith
  unfold calculate_risk_level
  exact risk_rank_classify_mono (by omega)

/-- Witness for C7 at credibility 0.3 ≤ 0.7 with the scenario inputs. -/
theorem C7_risk_tier_antitone_witness :
    risk_rank (calculate_risk_level (7/10) [] afScenario saScenario)
      ≤ risk_rank (calculate_risk_level (3/10) [] afScenario saScenario) :=
  C7_risk_tier_antitone (3/10) (7/10) [] afScenario saScenario (by norm_num)

/-- C6 — FusionEngine purity and totality: `fuse_modalities` is deterministic
(equal inputs give equal results — the embedding carries no hidden state and
the printed progress messages carry no semantic content), its `try/except`
wrapper never takes the exception path on well-typed inputs
(`fuse_modalitiesE` always returns `ok`), and a missing `overall_confidence`
key, a missing `sentiment_distribution` dict and a missing `inconsistencies`
key are observationally equivalent to substituting the neutral constants 0.5,
0.33 per bucket and the empty list respectively. -/
theorem C6_fusion_purity_totality_defaults :
    (∀ af1 af2 : AudioFeaturesIn, ∀ sa1 sa2 : SentimentIn, ∀ ca1 ca2 : ChartIn,
        af1 = af2 → sa1 = sa2 → ca1 = ca2 →
        fuse_modalities af1 sa1 ca1 = fuse_modalities af2 sa2 ca2)
    ∧ (∀ (af : AudioFeaturesIn) (sa : SentimentIn) (ca : ChartIn),
        fuse_modalitiesE af sa ca = Except.ok (fuse_modalities af sa ca))
    ∧ (∀ (af : AudioFeaturesIn) (sa : SentimentIn) (ca : ChartIn),
        fuse_modalities { af with overall_confidence := none } sa ca
        = fuse_modalities { af with overall_confidence := some (1/2) } sa ca)
    ∧ (∀ (af : AudioFeaturesIn) (sa : SentimentIn) (ca : ChartIn),
        fuse_modalities af { sa with sentiment_distribution := none } ca
        = fuse_modalities af
            { sa with
              sentiment_distribution := some
                { positive := some (33/100), neutral := some (33/100),
                  negative := some (33/100) } } ca)
    ∧ (∀ (af : AudioFeaturesIn) (sa : SentimentIn) (ca : ChartIn),
        fuse_modalities af sa { ca with inconsistencies := none }
        = fuse_modalities af sa { ca with inconsistencies := some [] }) := by
  refine ⟨?_, ?_, ?_, ?_, ?_⟩
  · intro af1 af2 sa1 sa2 ca1 ca2 h1 h2 h3
    rw [h1, h2, h3]
  · intro af sa ca
    rfl
  · intro af sa ca
    rfl
  · intro af sa ca
    simp only [fuse_modalities, generate_fusion_insights, calculate_credibility_score,
      detect_discrepancies, calculate_risk_level, calculate_attention_weights,
      Option.none_bind, Option.some_bind, Option.getD_none, Option.getD_some]
    norm_num
  · intro af sa ca
    rfl

/-- Witness for C6 at the scenario inputs. -/
theorem C6_fusion_purity_totality_defaults_witness :
    fuse_modalities afScenario saScenario caScenario
      = fuse_modalities afScenario saScenario caScenario
    ∧ fuse_modalitiesE afScenario saScenario caScenario
      = Except.ok (fuse_modalities afScenario saScenario caScenario)
    ∧ fuse_modalities { afScenario with overall_confidence := none } saScenario caScenario
      = fuse_modalities { afScenario with overall_confidence := some (1/2) } saScenario
          caScenario :=
  ⟨C6_fusion_purity_totality_defaults.1 afScenario afScenario saScenario saScenario
      caScenario caScenario rfl rfl rfl,
   C6_fusion_purity_totality_defaults.2.1 afScenario saScenario caScenario,
   C6_fusion_purity_totality_defaults.2.2.1 afScenario saScenario caScenario⟩

/-- C4 — Overall confidence six-factor model: for every extracted feature set
(all keys present, mean RMS positive so the energy quotient is meaningful),
the code's `_calculate_overall_confidence_6factor` equals the claimed formula
round3(clamp(0.25·max(0,1−variation) + 0.20·max(0,1−rms_std/rms_mean) +
0.15·max(0,1−|rate−2.6|/2.6) + 0.20·max(0,1−pause%/50) +
0.10·pitch_range_score + 0.10·clamp((HNR−10)/30,0,1) − 0.03·#stress, 0, 1)),
and for every input whatsoever the result lies in [0,1]. -/
theorem C4_overall_confidence_6factor :
    (∀ variation rms_mean rms_std speech_rate pause_pct pitch_mean hnr : ℚ,
      ∀ (timeline : List TimelineWindow) (stress : List StressIndicator) (j : Option ℚ),
      0 < rms_mean →
      calculate_overall_confidence_6factor timeline
          { mean := some pitch_mean, variation := some variation }
          { rms_mean := some rms_mean, rms_std := some rms_std }
          { jitter := j, hnr := some hnr }
          { speech_rate := some speech_rate, pause_percentage := some pause_pct } stress
        = claimed_overall_confidence variation rms_mean rms_std speech_rate pause_pct
            pitch_mean hnr stress.length)
    ∧ (∀ (timeline : List TimelineWindow) (pitch : PitchFeatures) (energy : EnergyFeatures)
        (vq : VoiceQualityFeatures) (prosodic : ProsodicFeatures)
        (stress : List StressIndicator),
        0 ≤ calculate_overall_confidence_6factor timeline pitch energy vq prosodic stress
        ∧ calculate_overall_confidence_6factor timeline pitch energy vq prosodic stress ≤ 1) := by
  constructor
  · intro variation rms_mean rms_std speech_rate pause_pct pitch_mean hnr timeline stress j h
    unfold calculate_overall_confidence_6factor claimed_overall_confidence
    simp only [Option.getD_some]
    rw [if_pos h, clamp_comm]
    congr 1
    congr 1
    ring_nf
  · intro timeline pitch energy vq prosodic stress
    constructor
    · exact round3_nonneg (le_max_left _ _)
    · exact round3_le_one (max_le (by norm_num) (min_le_left _ _))

/-- Witness for C4 at a concrete feature set with rms_mean = 0.05 > 0. -/
theorem C4_overall_confidence_6factor_witness :
    0 < (5:ℚ)/100
    ∧ calculate_overall_confidence_6factor []
        { mean := some 120, variation := some (1/10) }
        { rms_mean := some (5/100), rms_std := some (1/100) }
        { jitter := none, hnr := some 25 }
        { speech_rate := some (13/5), pause_percentage := some 10 } []
      = claimed_overall_confidence (1/10) (5/100) (1/100) (13/5) 10 120 25 0 :=
  ⟨by norm_num,
   C4_overall_confidence_6factor.1 (1/10) (5/100) (1/100) (13/5) 10 120 25 [] [] none
     (by norm_num)⟩

/-- C5 — Confidence timeline window structure: for every signal length `n`
and the configured sample rate (positive, divisible by 10 as
`settings.SAMPLE_RATE = 16000` is), a window index is dropped iff the audio
remaining for it is shorter than 0.1 s (fewer than `sr/10` of the `n − i·sr`
remaining samples); when the duration is at least 1 s the number of emitted
windows equals `floor(duration) = n / sr`; and emitted window times (each
`i + 0.5`) are strictly increasing, so no two consecutive windows share a
time value. -/
theorem C5_timeline_window_structure (n sr : ℕ) (analysis : ℕ → WindowAnalysis)
    (hsr : 0 < sr) (hdvd : 10 ∣ sr) :
    (∀ i < num_intervals n sr,
        (i ∉ kept_window_indices n sr ↔ 10 * (n - i * sr) < sr))
    ∧ (sr ≤ n → (compute_confidence_timeline_windowed n sr analysis).length = n / sr)
    ∧ (compute_confidence_timeline_windowed n sr analysis).Pairwise
        (fun w1 w2 => w1.time < w2.time) := by
  obtain ⟨m, hm⟩ := hdvd
  have hm0 : 0 < m := by omega
  have hdiv : sr / 10 = m := by omega
  refine ⟨?_, ?_, ?_⟩
  · intro i hi
    rw [kept_window_indices]
    simp only [List.mem_filter, List.mem_range, decide_eq_true_eq, not_and, not_le]
    rw [window_len_eq]
    constructor
    · intro hlt
      have := hlt hi
      omega
    · intro hlt hib
      omega
  · intro hn
    have hnum : num_intervals n sr = n / sr := by
      unfold num_intervals
      have h1 : 1 ≤ n / sr := (Nat.one_le_div_iff hsr).mpr hn
      omega
    unfold compute_confidence_timeline_windowed kept_window_indices
    rw [hnum, List.length_map]
    have hall : ∀ i ∈ List.range (n / sr), (decide (sr / 10 ≤ window_len n sr i)) = true := by
      intro i hi
      rw [List.mem_range] at hi
      rw [decide_eq_true_eq, window_len_eq]
      have hle : (i + 1) * sr ≤ n := by
        calc (i + 1) * sr ≤ (n / sr) * sr := Nat.mul_le_mul_right sr (by omega)
        _ ≤ n := Nat.div_mul_le_self n sr
      have h2 : (i + 1) * sr = i * sr + sr := by ring
      omega
    rw [List.filter_eq_self.mpr hall, List.length_range]
  · unfold compute_confidence_timeline_windowed
    rw [List.pairwise_map]
    have hp : (kept_window_indices n sr).Pairwise (· < ·) :=
      (List.pairwise_lt_range _).sublist (List.filter_sublist _)
    refine hp.imp ?_
    intro a b hab
    rw [window_entry_time, window_entry_time]
    have hq : (a : ℚ) < (b : ℚ) := by exact_mod_cast hab
    linarith

/-- Witness for C5 at a 2.5 s signal (n = 25 samples, sr = 10). -/
theorem C5_timeline_window_structure_witness :
    (∀ i < num_intervals 25 10,
        (i ∉ kept_window_indices 25 10 ↔ 10 * (25 - i * 10) < 10))
    ∧ (10 ≤ 25 →
        (compute_confidence_timeline_windowed 25 10 (fun _ => WindowAnalysis.fail)).length
          = 25 / 10)
    ∧ (compute_confidence_timeline_windowed 25 10 (fun _ => WindowAnalysis.fail)).Pairwise
        (fun w1 w2 => w1.time < w2.time) :=
  C5_timeline_window_structure 25 10 (fun _ => WindowAnalysis.fail)
    (by norm_num) (by norm_num)

/-- C8 counterexample — the claim's attention-weight recipe ("weights start
at 1/3 for each ... text gains +0.1 if the distinct key-topic count exceeds
3") is false on the code on two counts: with one chart inconsistency the
0.33-based code and the 1/3-based recipe round differently (chart weight
0.421 vs 0.420), and with a key-topic list holding four copies of one topic
the code bumps the text weight on the raw list length (`len(key_topics)`)
while the distinct-count recipe does not (text weight 0.394 vs 0.333). -/
theorem C8_counterexample_third_and_distinct :
    (calculate_attention_weights afScenario saScenario caOneInconsistency
      ≠ attention_weights_claimed_third afScenario saScenario caOneInconsistency)
    ∧ (calculate_attention_weights afScenario saDuplicatedTopics caScenario
      ≠ attention_weights_claimed_third afScenario saDuplicatedTopics caScenario) := by
  constructor
  · have h1 : (calculate_attention_weights afScenario saScenario caOneInconsistency).chart
        = 421/1000 := by
      simp only [calculate_attention_weights, afScenario, saScenario, caOneInconsistency,
        Option.getD_some, round3]
      norm_num [round_eq]
    have h2 : (attention_weights_claimed_third afScenario saScenario caOneInconsistency).chart
        = 420/1000 := by
      simp only [attention_weights_claimed_third, afScenario, saScenario, caOneInconsistency,
        Option.getD_some, round3]
      norm_num [round_eq, List.dedup_nil]
    intro h
    rw [h, h2] at h1
    norm_num at h1
  · have hd : (["growth", "growth", "growth", "growth"] : List String).dedup.length = 1 := by
      decide
    have h1 : (calculate_attention_weights afScenario saDuplicatedTopics caScenario).text
        = 394/1000 := by
      simp only [calculate_attention_weights, afScenario, saDuplicatedTopics, saScenario,
        caScenario, Option.getD_some, round3]
      norm_num [round_eq]
    have h2 : (attention_weights_claimed_third afScenario saDuplicatedTopics caScenario).text
        = 333/1000 := by
      simp only [attention_weights_claimed_third, afScenario, saDuplicatedTopics, saScenario,
        caScenario, Option.getD_some, round3, hd]
      norm_num [round_eq]
    intro h
    rw [h, h2] at h1
    norm_num at h1

/-- C8 (amended) — Attention weights: the weights start at 0.33 (not 1/3) for
each modality; audio gains +0.1 if the stress count exceeds 2, text +0.1 if
the key-topic list length (duplicates counted, not the distinct count)
exceeds 3, chart +0.15 if any inconsistency exists; they are renormalized to
sum 1 and rounded to 3 decimals, so the returned weights always sum to 1.000
up to rounding error (within 3/2000). -/
theorem C8_attention_weights :
    (∀ (af : AudioFeaturesIn) (sa : SentimentIn) (ca : ChartIn),
        calculate_attention_weights af sa ca = attention_weights_claimed_033 af sa ca)
    ∧ (∀ (af : AudioFeaturesIn) (sa : SentimentIn) (ca : ChartIn),
        |(calculate_attention_weights af sa ca).audio
          + (calculate_attention_weights af sa ca).text
          + (calculate_attention_weights af sa ca).chart - 1| ≤ 3/2000) := by
  constructor
  · intro af sa ca
    rfl
  · intro af sa ca
    unfold calculate_attention_weights
    set a1 : ℚ := if 2 < (af.stress_indicators.getD []).length then 33/100 + 1/10 else 33/100
      with ha1
    set t1 : ℚ := if 3 < (sa.key_topics.getD []).length then 33/100 + 1/10 else 33/100
      with ht1
    set c1 : ℚ := if 0 < (ca.inconsistencies.getD []).length then 33/100 + 15/100 else 33/100
      with hc1
    have hapos : (33:ℚ)/100 ≤ a1 := by rw [ha1]; split_ifs <;> norm_num
    have htpos : (33:ℚ)/100 ≤ t1 := by rw [ht1]; split_ifs <;> norm_num
    have hcpos : (33:ℚ)/100 ≤ c1 := by rw [hc1]; split_ifs <;> norm_num
    have htot : a1 + t1 + c1 ≠ 0 := by positivity
    have hsum : a1 / (a1 + t1 + c1) + t1 / (a1 + t1 + c1) + c1 / (a1 + t1 + c1) = 1 := by
      field_simp
    have e1 := abs_round3_sub_le (a1 / (a1 + t1 + c1))
    have e2 := abs_round3_sub_le (t1 / (a1 + t1 + c1))
    have e3 := abs_round3_sub_le (c1 / (a1 + t1 + c1))
    simp only []
    rw [abs_le] at e1 e2 e3 ⊢
    constructor <;> linarith

/-- C3 counterexample — the claim that for every successfully decoded
non-empty signal an exception inside any sub-feature computation is degraded
to defaults is false on the code: on a run whose signal decodes fine (32000
samples) but whose pitch computation raises, `extract_features` does not
return a features record — it raises the extraction error. -/
theorem C3_counterexample_pitch_failure_aborts :
    envPitchFails.load = Except.ok 32000
    ∧ extract_features (fun _ => 0) envPitchFails 16000
        = Except.error "Failed to extract audio features: pyin decomposition failed" :=
  ⟨rfl, rfl⟩

/-- C3 (amended) — Extraction contract: `extract_features` returns a features
record iff the decode and every sub-feature computation outside an inner
`try` (cepstral, pitch, energy, spectral voice-quality, jitter, shimmer,
prosody) succeed — an exception in any of those aborts the call with the
extraction error, as does a decode failure; the only degraded-in-place
failures are the HPSS separation (HNR defaults to 20) and a single timeline
window's analysis (that window gets all fields 0.5), neither of which aborts
the call. -/
theorem C3_extraction_contract (log10 : ℚ → ℚ) (env : ExtractEnv) (sr : ℕ) :
    ((∃ r, extract_features log10 env sr = .ok r) ↔ extract_fatal_calls_ok env)
    ∧ (∀ e, env.load = .error e →
        extract_features log10 env sr = .error ("Failed to extract audio features: " ++ e))
    ∧ (∀ e, env.hpss = .error e → ∀ r, extract_features log10 env sr = .ok r →
        r.hnr = 20)
    ∧ (∀ n, env.load = .ok n → ∀ r, extract_features log10 env sr = .ok r →
        r.confidence_timeline
          = (kept_window_indices n sr).map (fun i => window_entry i (env.window i)))
    ∧ (∀ i, env.window i = .fail →
        window_entry i (env.window i)
          = { time := (i : ℚ) + 1/2, confidence := 1/2, pitch_stability := 1/2,
              energy_level := 1/2, voice_quality := 1/2 }) := by
  obtain ⟨load, mfccs, pitch, energy, spectral, vj, vs, hp, pros, window⟩ := env
  refine ⟨?_, ?_, ?_, ?_, ?_⟩
  · cases load <;> cases mfccs <;> cases pitch <;> cases energy <;> cases spectral <;>
      cases vj <;> cases vs <;> cases pros <;>
      simp [extract_features, extract_features_body, extract_fatal_calls_ok]
  · intro e he
    subst he
    rfl
  · intro e he r hr
    subst he
    cases load <;> cases mfccs <;> cases pitch <;> cases energy <;> cases spectral <;>
      cases vj <;> cases vs <;> cases pros <;>
      simp_all [extract_features, extract_features_body, hnr_of_hpss]
    rw [← hr]
  · intro n hn r hr
    subst hn
    cases mfccs <;> cases pitch <;> cases energy <;> cases spectral <;>
      cases vj <;> cases vs <;> cases pros <;>
      simp_all [extract_features, extract_features_body]
    rw [← hr]
    rfl
  · intro i hw
    rw [hw]
    rfl

/-- Witness for C3 on a run whose HPSS separation raises: extraction still
succeeds and the returned HNR is the degraded default 20. -/
theorem C3_extraction_contract_witness :
    (∃ r, extract_features (fun _ => 0) envDegraded 16000 = Except.ok r)
    ∧ (∀ r, extract_features (fun _ => 0) envDegraded 16000 = Except.ok r → r.hnr = 20) := by
  have t := C3_extraction_contract (fun _ => 0) envDegraded 16000
  exact ⟨t.1.mpr ⟨⟨32000, rfl⟩, ⟨(), rfl⟩, ⟨_, rfl⟩, ⟨_, rfl⟩, ⟨(), rfl⟩, ⟨5, rfl⟩,
           ⟨1/100, rfl⟩, ⟨_, rfl⟩⟩,
         fun r hr => t.2.2.1 "hpss separation failed" rfl r hr⟩

/-- C1 counterexample — the claim that the stage-6 fallback narrative is
built *only* from the already-computed fusion results is false on the code:
two runs with identical fusion results (and both reaching status completed)
whose narrative stage raises with different messages get different fallback
narratives, because the fallback embeds the exception message (and also the
company name, audio confidence and overall sentiment). -/
theorem C1_counterexample_fallback_depends_on_error :
    (process_job runNarrativeFailsA).fusion_results
      = (process_job runNarrativeFailsB).fusion_results
    ∧ (process_job runNarrativeFailsA).status = "completed"
    ∧ (process_job runNarrativeFailsB).status = "completed"
    ∧ (process_job runNarrativeFailsA).claude_analysis
      ≠ (process_job runNarrativeFailsB).claude_analysis := by
  refine ⟨rfl, rfl, rfl, ?_⟩
  have hA : (process_job runNarrativeFailsA).claude_analysis
      = some (fallback_claude_results (some "Acme Corp") "api timeout" frSample
          afScenario saScenario) := rfl
  have hB : (process_job runNarrativeFailsB).claude_analysis
      = some (fallback_claude_results (some "Acme Corp") "rate limited!" frSample
          afScenario saScenario) := rfl
  rw [hA, hB]
  intro h
  have h2 := congrArg (fun r => r.executive_summary.length) (Option.some.inj h)
  simp only [fallback_claude_results, String.length_append] at h2
  have hlen1 : ("api timeout".take 200).length = 11 := rfl
  have hlen2 : ("rate limited!".take 200).length = 13 := rfl
  rw [hlen1, hlen2] at h2
  omega

/-- C1 (amended) — Failure semantics of `process_job`: an exception in stage
1 (transcription), 2 (feature extraction), 3 (sentiment), 4 (chart), 5
(fusion) or 7 (finalize) ends the job with status "failed", the exception
message as the error message and the completion timestamp set, and no later
stage executed (later stage outputs absent, progress at the last committed
checkpoint); an exception in stage 6 (narrative synthesis) is caught and
replaced by the deterministic fallback narrative built from the
already-computed fusion results together with the company name, the
exception message, the audio confidence and the overall sentiment — its
risk-indicator list being the first 3 discrepancy descriptions — and the job
still ends with status "completed" and progress 100. -/
theorem C1_process_job_failure_semantics (run : JobRun) :
    (∀ e, run.transcription = .error e →
      (process_job run).status = "failed" ∧ (process_job run).error_message = some e
      ∧ (process_job run).completed_at_set = true ∧ (process_job run).progress = 0
      ∧ (process_job run).transcript = none ∧ (process_job run).audio_features = none
      ∧ (process_job run).sentiment_analysis = none ∧ (process_job run).chart_analysis = none
      ∧ (process_job run).fusion_results = none ∧ (process_job run).claude_analysis = none)
    ∧ (∀ tr e, run.transcription = .ok tr → run.feature_extraction = .error e →
      (process_job run).status = "failed" ∧ (process_job run).error_message = some e
      ∧ (process_job run).completed_at_set = true ∧ (process_job run).progress = 20
      ∧ (process_job run).audio_features = none ∧ (process_job run).sentiment_analysis = none
      ∧ (process_job run).chart_analysis = none ∧ (process_job run).fusion_results = none
      ∧ (process_job run).claude_analysis = none)
    ∧ (∀ tr af e, run.transcription = .ok tr → run.feature_extraction = .ok af →
        run.sentiment = .error e →
      (process_job run).status = "failed" ∧ (process_job run).error_message = some e
      ∧ (process_job run).completed_at_set = true ∧ (process_job run).progress = 35
      ∧ (process_job run).sentiment_analysis = none ∧ (process_job run).chart_analysis = none
      ∧ (process_job run).fusion_results = none ∧ (process_job run).claude_analysis = none)
    ∧ (∀ tr af sa e, run.transcription = .ok tr → run.feature_extraction = .ok af →
        run.sentiment = .ok sa → stage4_result run = .error e →
      (process_job run).status = "failed" ∧ (process_job run).error_message = some e
      ∧ (process_job run).completed_at_set = true ∧ (process_job run).progress = 50
      ∧ (process_job run).chart_analysis = none
      ∧ (process_job run).fusion_results = none ∧ (process_job run).claude_analysis = none)
    ∧ (∀ tr af sa ca e, run.transcription = .ok tr → run.feature_extraction = .ok af →
        run.sentiment = .ok sa → stage4_result run = .ok ca → run.fusion = .error e →
      (process_job run).status = "failed" ∧ (process_job run).error_message = some e
      ∧ (process_job run).completed_at_set = true ∧ (process_job run).progress = 65
      ∧ (process_job run).fusion_results = none ∧ (process_job run).claude_analysis = none)
    ∧ (∀ tr af sa ca fr cr e, run.transcription = .ok tr → run.feature_extraction = .ok af →
        run.sentiment = .ok sa → stage4_result run = .ok ca → run.fusion = .ok fr →
        run.narrative = .ok cr → run.finalize_commit = .error e →
      (process_job run).status = "failed" ∧ (process_job run).error_message = some e
      ∧ (process_job run).completed_at_set = true ∧ (process_job run).progress = 90)
    ∧ (∀ tr af sa ca fr e, run.transcription = .ok tr → run.feature_extraction = .ok af →
        run.sentiment = .ok sa → stage4_result run = .ok ca → run.fusion = .ok fr →
        run.narrative = .error e → run.finalize_commit = .ok () →
      (process_job run).status = "completed" ∧ (process_job run).progress = 100
      ∧ (process_job run).completed_at_set = true ∧ (process_job run).error_message = none
      ∧ (process_job run).fusion_results = some fr
      ∧ (process_job run).claude_analysis
          = some (fallback_claude_results run.company_name e fr af sa)
      ∧ (fallback_claude_results run.company_name e fr af sa).risk_indicators
          = (fr.discrepancies.take 3).map Discrepancy.description) := by
  refine ⟨?_, ?_, ?_, ?_, ?_, ?_, ?_⟩
  · intro e h1
    simp [process_job, fail_state, h1]
  · intro tr e h1 h2
    simp [process_job, fail_state, h1, h2]
  · intro tr af e h1 h2 h3
    simp [process_job, fail_state, h1, h2, h3]
  · intro tr af sa e h1 h2 h3 h4
    simp [process_job, fail_state, h1, h2, h3, h4]
  · intro tr af sa ca e h1 h2 h3 h4 h5
    simp [process_job, fail_state, h1, h2, h3, h4, h5]
  · intro tr af sa ca fr cr e h1 h2 h3 h4 h5 h6 h7
    simp [process_job, fail_state, h1, h2, h3, h4, h5, h6, h7]
  · intro tr af sa ca fr e h1 h2 h3 h4 h5 h6 h7
    refine ⟨?_, ?_, ?_, ?_, ?_, ?_, rfl⟩ <;>
      simp [process_job, fail_state, h1, h2, h3, h4, h5, h6, h7]

/-- Witness for C1 on a run whose feature extraction raises (stage 2) and a
run whose narrative stage raises (stage 6). -/
theorem C1_process_job_failure_semantics_witness :
    (process_job runFeatureFails).status = "failed"
    ∧ (process_job runFeatureFails).error_message
        = some "Failed to extract audio features: decode error"
    ∧ (process_job runNarrativeFailsA).status = "completed"
    ∧ (process_job runNarrativeFailsA).progress = 100
    ∧ (process_job runNarrativeFailsA).claude_analysis
        = some (fallback_claude_results (some "Acme Corp") "api timeout" frSample
            afScenario saScenario) := by
  have t1 := (C1_process_job_failure_semantics runFeatureFails).2.1 trSample
    "Failed to extract audio features: decode error" rfl rfl
  have t2 := (C1_process_job_failure_semantics runNarrativeFailsA).2.2.2.2.2.2 trSample
    afScenario saScenario empty_chart_results frSample "api timeout"
    rfl rfl rfl rfl rfl rfl rfl
  exact ⟨t1.1, t1.2.1, t2.1, t2.2.1, t2.2.2.2.2.2.1⟩
